import Mathlib

/-!
Verification of the claim-negotiation decision pipeline.

This file gives a shallow embedding of the decision logic of the
insurance-claim negotiation repository and proves (or refutes) the stated
properties about it.  Python floats are modelled as rationals (`ℚ`); the
arithmetic of the embedded functions is exact, so every threshold
comparison of the source is represented literally.  Decimal constants of
the source are transcribed as exact rationals in `mkRat` form (`0.8` is
written `mkRat 8 10`, `1.05` is `mkRat 105 100`, and so on), which lets
concrete evaluations go through kernel reduction.  Python dictionaries
read with `.get(key, default)` are modelled as records carrying the fields
the code actually reads.  Wall-clock reads (`datetime.now()`) are modelled
as explicit boolean inputs.
-/

/-- Python's `needle in haystack` substring test, on character lists. -/
def occursIn (needle hay : List Char) : Bool :=
  decide (needle <:+: hay)

/-- Python's `str.lower()` (all strings in the embedded code are ASCII, so
per-character lowering matches Python's semantics). -/
def pyLower (s : String) : List Char :=
  s.toList.map Char.toLower

/-! ## Escalation manager (src/agents/escalation_manager.py) -/

/-- The emotion dictionary as read by the escalation manager: the code reads
`distress`, `anger`, `stress_level` (numeric, default 0), `primary_emotion`
(default "neutral") and `transcript` (default ""). -/
structure EmotionAnalysis where
  distress : ℚ := 0
  anger : ℚ := 0
  stress_level : ℚ := 0
  primary_emotion : String := "neutral"
  transcript : String := ""
  deriving DecidableEq

/-- The claim-details dictionary as read by the escalation manager: the code
reads `fraud_risk_score` (default 0) and `estimated_amount` (default 0). -/
structure ClaimDetails where
  fraud_risk_score : ℚ := 0
  estimated_amount : ℚ := 0
  claim_id : String := ""
  claim_type : String := ""
  deriving DecidableEq

/-- `EscalationContext` dataclass.  `conversation_history` holds the `text`
field of each message dict (the only field the code reads). -/
structure EscalationContext where
  conversation_history : List String
  emotion_analysis : EmotionAnalysis
  claim_details : ClaimDetails
  settlement_amount : ℚ
  legal_indicators : List String
  compliance_flags : List String
  customer_id : String
  deriving DecidableEq

/-- The five keys of the `EscalationManager.TRIGGERS` table. -/
inductive TriggerType where
  | legal_threat
  | extreme_distress
  | high_value
  | fraud_suspicion
  | regulatory_violation
  deriving DecidableEq

/-- Keyword list of the `legal_threat` trigger. -/
def legalKeywords : List String :=
  ["lawyer", "sue", "court", "legal action", "attorney", "litigation"]

/-- The `severity` label attached to each trigger in `TRIGGERS`. -/
def severityLabel : TriggerType → String
  | .legal_threat => "high"
  | .extreme_distress => "high"
  | .high_value => "medium"
  | .fraud_suspicion => "high"
  | .regulatory_violation => "critical"

/-- `EscalationManager._get_severity_score`. -/
def get_severity_score (severity : String) : ℕ :=
  if severity = "low" then 1
  else if severity = "medium" then 3
  else if severity = "high" then 5
  else if severity = "critical" then 10
  else 1

/-- `EscalationManager._check_trigger`: the per-trigger condition evaluated
against the context (each reads only the context, never another trigger). -/
def check_trigger (t : TriggerType) (ctx : EscalationContext) : Bool :=
  match t with
  | .legal_threat =>
      let conversation_text := String.intercalate " " ctx.conversation_history
      legalKeywords.any (fun kw => occursIn (pyLower kw) (pyLower conversation_text))
  | .extreme_distress =>
      decide (ctx.emotion_analysis.distress > mkRat 8 10) ||
        decide (ctx.emotion_analysis.anger > mkRat 9 10)
  | .high_value => decide (ctx.settlement_amount > 50000)
  | .fraud_suspicion => decide (ctx.claim_details.fraud_risk_score > mkRat 7 10)
  | .regulatory_violation => decide (ctx.compliance_flags.length > 0)

/-- Iteration order of the `TRIGGERS` dict (Python dicts preserve insertion
order). -/
def TRIGGERS : List TriggerType :=
  [.legal_threat, .extreme_distress, .high_value, .fraud_suspicion,
    .regulatory_violation]

/-- Result dictionary of `evaluate_escalation_need`. -/
structure EscalationEvaluation where
  should_escalate : Bool
  triggered_reasons : List TriggerType
  severity_score : ℕ
  escalation_type : String
  deriving DecidableEq

/-- `EscalationManager._determine_escalation_type`. -/
def determine_escalation_type (reasons : List TriggerType) : String :=
  if reasons.contains .regulatory_violation then "compliance_escalation"
  else if reasons.contains .legal_threat then "legal_escalation"
  else if reasons.contains .extreme_distress then "emotional_support_escalation"
  else if reasons.contains .fraud_suspicion then "fraud_investigation_escalation"
  else "general_escalation"

/-- `EscalationManager.evaluate_escalation_need`, parametrised by the order
in which the trigger table is traversed (the source traverses `TRIGGERS`;
the parameter lets us state order-independence). -/
def evaluate_escalation_need_over (order : List TriggerType)
    (ctx : EscalationContext) : EscalationEvaluation :=
  let triggered_reasons := order.filter (fun t => check_trigger t ctx)
  let severity_score :=
    (triggered_reasons.map (fun t => get_severity_score (severityLabel t))).sum
  { should_escalate := decide (triggered_reasons.length > 0)
    triggered_reasons := triggered_reasons
    severity_score := severity_score
    escalation_type := determine_escalation_type triggered_reasons }

/-- `EscalationManager.evaluate_escalation_need` with the source's trigger
order. -/
def evaluate_escalation_need (ctx : EscalationContext) : EscalationEvaluation :=
  evaluate_escalation_need_over TRIGGERS ctx

/-- C1: for every escalation context, `should_escalate` holds iff
`triggered_reasons` is non-empty, and evaluating the five triggers in any
permutation of the table order yields the same `severity_score` and the
same `triggered_reasons` up to permutation (hence the same set). -/
theorem escalation_invariant_and_order_independence
    (ctx : EscalationContext) (order : List TriggerType)
    (h : order.Perm TRIGGERS) :
    ((evaluate_escalation_need_over order ctx).should_escalate = true ↔
      (evaluate_escalation_need_over order ctx).triggered_reasons ≠ []) ∧
    (evaluate_escalation_need_over order ctx).severity_score =
      (evaluate_escalation_need ctx).severity_score ∧
    (evaluate_escalation_need_over order ctx).triggered_reasons.Perm
      (evaluate_escalation_need ctx).triggered_reasons := by
  refine ⟨?_, ?_, ?_⟩
  · simp [evaluate_escalation_need_over, List.length_pos]
  · exact ((h.filter _).map _).sum_eq
  · exact h.filter _

/-- An escalation context with no signals at all. -/
def ctx0 : EscalationContext :=
  { conversation_history := []
    emotion_analysis := {}
    claim_details := {}
    settlement_amount := 0
    legal_indicators := []
    compliance_flags := []
    customer_id := "CUST-0" }

/-- Witness for C1: the reversed trigger order is a permutation of the
table order, and the theorem applies to it at a concrete context. -/
theorem escalation_invariant_and_order_independence_witness :
    TRIGGERS.reverse.Perm TRIGGERS ∧
    (((evaluate_escalation_need_over TRIGGERS.reverse ctx0).should_escalate = true ↔
      (evaluate_escalation_need_over TRIGGERS.reverse ctx0).triggered_reasons ≠ []) ∧
    (evaluate_escalation_need_over TRIGGERS.reverse ctx0).severity_score =
      (evaluate_escalation_need ctx0).severity_score ∧
    (evaluate_escalation_need_over TRIGGERS.reverse ctx0).triggered_reasons.Perm
      (evaluate_escalation_need ctx0).triggered_reasons) :=
  ⟨TRIGGERS.reverse_perm,
   escalation_invariant_and_order_independence ctx0 TRIGGERS.reverse
     TRIGGERS.reverse_perm⟩

/-! ## Simplified escalation entry point (`EscalationManager.evaluate`) -/

/-- `EscalationManager._calculate_urgency_simple`. -/
def calculate_urgency_simple (triggers : List String) : String :=
  if triggers.length ≥ 3 then "critical"
  else if triggers.length ≥ 2 then "high"
  else if triggers.length ≥ 1 then "medium"
  else "low"

/-- `EscalationManager._get_recommended_action_simple`. -/
def get_recommended_action_simple (triggers : List String) : String :=
  if triggers.any (fun t => occursIn "legal".toList (pyLower t)) then
    "Immediate supervisor and legal review required"
  else if triggers.length ≥ 2 then "Supervisor review required"
  else "Continue with enhanced monitoring"

/-- Result dictionary of the simplified `evaluate`. -/
structure SimpleEvaluation where
  should_escalate : Bool
  escalation_triggers : List String
  urgency_level : String
  recommended_action : String
  deriving DecidableEq

/-- Keyword list of the simplified evaluator's `legal_keywords` threshold
entry (note: a strict subset of `legalKeywords`, missing "court" and
"litigation"). -/
def simpleLegalKeywords : List String :=
  ["lawyer", "attorney", "legal action", "sue"]

/-- `EscalationManager.evaluate`: the simplified single-call entry point.
Its third argument `analysis_result` is never read by the body, exactly as
in the source.  Each firing check appends one message and sets
`should_escalate`; the sequential appends are modelled as a concatenation
of conditional singletons. -/
def evaluate_simple (emotion_result : EmotionAnalysis)
    (claim_data : ClaimDetails) (analysis_result : Unit) : SimpleEvaluation :=
  let _ := analysis_result
  let t1 : Bool := decide (emotion_result.stress_level > mkRat 7 10)
  let t2 : Bool := decide (emotion_result.anger > mkRat 8 10)
  let t3 : Bool := decide (claim_data.estimated_amount > 100000)
  let t4 : Bool :=
    simpleLegalKeywords.any
      (fun kw => occursIn kw.toList (pyLower emotion_result.transcript))
  let escalation_triggers :=
    (if t1 then ["High customer stress detected"] else []) ++
    (if t2 then ["High anger level detected"] else []) ++
    (if t3 then ["High-value claim requires review"] else []) ++
    (if t4 then ["Legal threat detected"] else [])
  { should_escalate := t1 || t2 || t3 || t4
    escalation_triggers := escalation_triggers
    urgency_level := calculate_urgency_simple escalation_triggers
    recommended_action := get_recommended_action_simple escalation_triggers }

/-- An escalation context whose only signal is a 60000 settlement amount;
its claim details carry the same 60000 as `estimated_amount`. -/
def ctx60k : EscalationContext :=
  { conversation_history := []
    emotion_analysis := {}
    claim_details := { estimated_amount := 60000 }
    settlement_amount := 60000
    legal_indicators := []
    compliance_flags := []
    customer_id := "CUST-60K" }

/-- C2 counterexample: on the same 60000-value input (quiet customer, empty
transcript, no flags), the full evaluator escalates via its 50000
high-value threshold while the simplified entry point, whose high-value
threshold is 100000, does not — the two entry points neither share
threshold values nor agree on `should_escalate`. -/
theorem evaluate_entry_points_disagree :
    (evaluate_escalation_need ctx60k).should_escalate = true ∧
    (evaluate_simple {} { estimated_amount := 60000 } ()).should_escalate = false := by
  decide

/-- C2 amended: the simplified entry point still satisfies the qualitative
invariant `should_escalate ⇔ escalation_triggers non-empty` (shared with
the full evaluator), even though its threshold values differ from the full
evaluator's. -/
theorem evaluate_simple_invariant (e : EmotionAnalysis) (c : ClaimDetails) :
    (evaluate_simple e c ()).should_escalate = true ↔
      (evaluate_simple e c ()).escalation_triggers ≠ [] := by
  unfold evaluate_simple
  rcases decide (e.stress_level > mkRat 7 10) <;>
    rcases decide (e.anger > mkRat 8 10) <;>
      rcases decide (c.estimated_amount > 100000) <;>
        rcases simpleLegalKeywords.any
            (fun kw => occursIn kw.toList (pyLower e.transcript)) <;>
          simp

/-! ## Compliance rule engine (src/tools/compliance_tools.py) -/

/-- `ComplianceReport` pydantic model. -/
structure ComplianceReport where
  compliant : Bool
  violations : List String
  warnings : List String
  required_approvals : List String
  additional_documentation : List String
  regulatory_notes : String
  risk_level : String
  deriving DecidableEq

/-- The inline `state_rules` table of `ComplianceCheckTool.run`: per-state
maximum auto settlement cap and required disclosure document (only "CA"
and "NY" are present in the tool; the larger table in
`validation_config.py` is not consulted by this code path). -/
def state_rules (state : String) : Option (ℚ × String) :=
  if state = "CA" then some (50000, "california_consumer_privacy_notice")
  else if state = "NY" then some (45000, "new_york_insurance_disclosure")
  else none

/-- `ComplianceCheckTool.run`.  The source reads the wall clock once, as
`datetime.now().weekday() >= 5`; that read is the `is_weekend` input here.
The source's sequence of mutations (extend/append on the accumulator
lists, reassignment of `risk_level`) is written as the equivalent
concatenations and nested conditionals. -/
def compliance_check_run (settlement_amount : ℚ) (claim_type state : String)
    (is_weekend : Bool) : ComplianceReport :=
  let required_approvals :=
    (if settlement_amount > 100000 then ["senior_manager", "legal_department"]
     else []) ++
    (if settlement_amount > 250000 then ["executive_approval"] else [])
  let risk_level :=
    if settlement_amount > 250000 then "critical"
    else if settlement_amount > 100000 then "high"
    else "low"
  let violations :=
    match state_rules state with
    | some (cap, _) =>
        if claim_type = "auto" ∧ settlement_amount > cap then
          ["Settlement exceeds " ++ state ++ " maximum for auto claims"]
        else []
    | none => []
  let additional_documentation :=
    (if settlement_amount > 100000 then ["detailed_justification_report"]
     else []) ++
    (if settlement_amount > 250000 then ["external_legal_review"] else []) ++
    (match state_rules state with
     | some (_, disclosure) => [disclosure]
     | none => [])
  let warnings :=
    if is_weekend then
      ["Settlement processed on weekend - verify business day requirements"]
    else []
  { compliant := decide (violations.length = 0)
    violations := violations
    warnings := warnings
    required_approvals := required_approvals
    additional_documentation := additional_documentation
    regulatory_notes := "Compliance check completed for " ++ state ++ " jurisdiction"
    risk_level := risk_level }

/-- C3 counterexample: with `claim_type = "auto_collision"`, a 60000
settlement in CA (cap 50000) produces NO violation and `compliant = true`,
because the engine compares `claim_type` for equality with the exact
string "auto".  The claim's scenario fails on the code. -/
theorem compliance_auto_collision_counterexample :
    (compliance_check_run 60000 "auto_collision" "CA" false).compliant = true ∧
    (compliance_check_run 60000 "auto_collision" "CA" false).violations = [] := by
  decide

/-- C3 amended: with `claim_type` exactly "auto", a 60000 settlement in CA
(cap 50000) yields `compliant = false` and exactly one violation, whose
text names the jurisdiction (but not the numeric cap), on weekdays and
weekends alike. -/
theorem compliance_auto_exact_violation (w : Bool) :
    (compliance_check_run 60000 "auto" "CA" w).compliant = false ∧
    (compliance_check_run 60000 "auto" "CA" w).violations =
      ["Settlement exceeds CA maximum for auto claims"] := by
  cases w <;> decide

/-- C6: whenever the settlement amount strictly exceeds the executive
threshold 250000, the report's `risk_level` is "critical" and the
required approvals contain both senior-manager-tier approvals
("senior_manager" and "legal_department"), cumulatively with
"executive_approval". -/
theorem compliance_executive_critical (amount : ℚ) (claim_type state : String)
    (w : Bool) (h : amount > 250000) :
    (compliance_check_run amount claim_type state w).risk_level = "critical" ∧
    "senior_manager" ∈ (compliance_check_run amount claim_type state w).required_approvals ∧
    "legal_department" ∈ (compliance_check_run amount claim_type state w).required_approvals := by
  have h1 : amount > 100000 := lt_trans (by norm_num) h
  unfold compliance_check_run
  simp [h, h1]

/-- Witness for C6 at a concrete 300000 settlement. -/
theorem compliance_executive_critical_witness :
    (300000 : ℚ) > 250000 ∧
    ((compliance_check_run 300000 "auto" "CA" false).risk_level = "critical" ∧
    "senior_manager" ∈ (compliance_check_run 300000 "auto" "CA" false).required_approvals ∧
    "legal_department" ∈ (compliance_check_run 300000 "auto" "CA" false).required_approvals) :=
  ⟨by decide,
   compliance_executive_critical 300000 "auto" "CA" false (by decide)⟩

/-- C7 counterexample: for one and the same input triple
(1000, "auto", "CA"), the report produced during a weekend differs from
the one produced on a weekday (the warnings differ), so two runs of the
engine at different wall-clock times need not return equal reports — and
the weekend check is read inside `run` via `datetime.now()`, not injected. -/
theorem compliance_weekend_dependence :
    compliance_check_run 1000 "auto" "CA" true ≠
      compliance_check_run 1000 "auto" "CA" false := by
  decide

/-- C7 amended: the evaluation is a pure function of the input triple and
the weekend flag — two runs agree on every field except possibly
`warnings`, which is the only field that reads the wall clock; holding the
weekend status fixed, two runs return equal reports. -/
theorem compliance_deterministic_up_to_weekend (amount : ℚ)
    (claim_type state : String) (w1 w2 : Bool) :
    (compliance_check_run amount claim_type state w1).compliant =
      (compliance_check_run amount claim_type state w2).compliant ∧
    (compliance_check_run amount claim_type state w1).violations =
      (compliance_check_run amount claim_type state w2).violations ∧
    (compliance_check_run amount claim_type state w1).required_approvals =
      (compliance_check_run amount claim_type state w2).required_approvals ∧
    (compliance_check_run amount claim_type state w1).additional_documentation =
      (compliance_check_run amount claim_type state w2).additional_documentation ∧
    (compliance_check_run amount claim_type state w1).risk_level =
      (compliance_check_run amount claim_type state w2).risk_level ∧
    (compliance_check_run amount claim_type state w1).regulatory_notes =
      (compliance_check_run amount claim_type state w2).regulatory_notes ∧
    compliance_check_run amount claim_type state w1 =
      compliance_check_run amount claim_type state w1 :=
  ⟨rfl, rfl, rfl, rfl, rfl, rfl, rfl⟩

/-! ## Settlement calculation engine (src/tools/settlement_tools.py,
thresholds from src/config/validation_config.py `SettlementConfig`) -/

/-- `SettlementConfig.HIGH_STRESS_THRESHOLD` default 0.7. -/
def HIGH_STRESS_THRESHOLD : ℚ := mkRat 7 10

/-- `SettlementConfig.VERY_HIGH_STRESS_THRESHOLD` default 0.8. -/
def VERY_HIGH_STRESS_THRESHOLD : ℚ := mkRat 8 10

/-- `SettlementConfig.EMPATHY_ADJUSTMENT_FACTOR` default 1.05. -/
def EMPATHY_ADJUSTMENT_FACTOR : ℚ := mkRat 105 100

/-- `SettlementConfig.HIGH_ANGER_ADJUSTMENT_FACTOR` default 1.07. -/
def HIGH_ANGER_ADJUSTMENT_FACTOR : ℚ := mkRat 107 100

/-- `SettlementConfig.MIN_ADJUSTMENT_FACTOR` default 0.9. -/
def MIN_ADJUSTMENT_FACTOR : ℚ := mkRat 9 10

/-- `SettlementConfig.MAX_ADJUSTMENT_FACTOR` default 1.1. -/
def MAX_ADJUSTMENT_FACTOR : ℚ := mkRat 11 10

/-- `SettlementConfig.SPECIAL_APPROVAL_PERCENTAGE` default 0.8. -/
def SPECIAL_APPROVAL_PERCENTAGE : ℚ := mkRat 8 10

/-- `SettlementOfferTool._calculate_emotional_adjustment`.  Note the branch
order of the source: the `HIGH_STRESS_THRESHOLD` test comes first and its
emotion list contains the full emotion list of the second test, so the
second (`elif`) branch is checked only when the first fails. -/
def calculate_emotional_adjustment (emotional_context : String)
    (stress_level : ℚ) : ℚ :=
  let adjustment : ℚ :=
    if (["anger", "frustration", "sadness"].contains emotional_context) ∧
        stress_level > HIGH_STRESS_THRESHOLD then
      EMPATHY_ADJUSTMENT_FACTOR
    else if (["anger", "frustration"].contains emotional_context) ∧
        stress_level > VERY_HIGH_STRESS_THRESHOLD then
      HIGH_ANGER_ADJUSTMENT_FACTOR
    else 1
  max MIN_ADJUSTMENT_FACTOR (min MAX_ADJUSTMENT_FACTOR adjustment)

/-- `SettlementOfferTool._calculate_confidence`. -/
def calculate_confidence (claim_amount policy_coverage damage_assessment : ℚ) : ℚ :=
  let max_val := max claim_amount (max policy_coverage damage_assessment)
  let min_val := min claim_amount (min policy_coverage damage_assessment)
  if max_val = 0 then mkRat 1 2
  else
    let variance := (max_val - min_val) / max_val
    let confidence := 1 - variance
    max (mkRat 1 10) (min (mkRat 95 100) confidence)

/-- `SettlementOfferTool._requires_special_approval`. -/
def requires_special_approval (settlement_amount policy_coverage : ℚ) : Bool :=
  decide (settlement_amount > policy_coverage * SPECIAL_APPROVAL_PERCENTAGE)

/-- Result of `SettlementOfferTool.run`.  The free-text fields
(`offer_reasoning`, `recommended_next_steps`), which only render the
numbers below into prose, are not modelled. -/
structure SettlementOfferResult where
  settlement_amount : ℚ
  confidence_score : ℚ
  requires_approval : Bool
  deriving DecidableEq

/-- `SettlementOfferTool.run`, happy path.  The `try` body is pure
arithmetic that cannot raise, so the `except` fallback (which would return
`min` of the three amounts) is unreachable in this model. -/
def settlement_offer_run (claim_amount policy_coverage damage_assessment : ℚ)
    (emotional_context : String) (stress_level : ℚ) : SettlementOfferResult :=
  let base_settlement := min claim_amount (min policy_coverage damage_assessment)
  let adjustment_factor := calculate_emotional_adjustment emotional_context stress_level
  let adjusted_settlement := base_settlement * adjustment_factor
  let final_settlement := min adjusted_settlement policy_coverage
  { settlement_amount := final_settlement
    confidence_score := calculate_confidence claim_amount policy_coverage damage_assessment
    requires_approval := requires_special_approval final_settlement policy_coverage }

/-- C4 (code bug): for primary emotion "anger" with stress level 0.85
(above the very-high-stress threshold 0.8), the branch order makes the
first branch fire (0.85 also exceeds the high-stress threshold 0.7), so
the factor applied is the empathy factor 1.05 — the high-anger factor
1.07 is never reached for any stress level, contradicting the claim. -/
theorem anger_very_high_stress_gets_empathy_factor :
    calculate_emotional_adjustment "anger" (mkRat 85 100) =
      EMPATHY_ADJUSTMENT_FACTOR ∧
    EMPATHY_ADJUSTMENT_FACTOR ≠ HIGH_ANGER_ADJUSTMENT_FACTOR ∧
    mkRat 85 100 > VERY_HIGH_STRESS_THRESHOLD := by
  decide

/-- C10: the confidence computation is total on non-negative inputs — the
zero-maximum case is guarded and returns 0.5, and in every case the
result lies in [0.1, 0.95]. -/
theorem confidence_total_and_bounded (c p d : ℚ)
    (hc : 0 ≤ c) (hp : 0 ≤ p) (hd : 0 ≤ d) :
    (max c (max p d) = 0 → calculate_confidence c p d = mkRat 1 2) ∧
    mkRat 1 10 ≤ calculate_confidence c p d ∧
    calculate_confidence c p d ≤ mkRat 95 100 := by
  unfold calculate_confidence
  by_cases hmax : max c (max p d) = 0
  · refine ⟨fun _ => by simp [hmax], ?_, ?_⟩ <;> simp [hmax] <;> decide
  · refine ⟨fun h => absurd h hmax, ?_, ?_⟩
    · simp only [if_neg hmax]
      exact le_max_left _ _
    · simp only [if_neg hmax]
      exact max_le (by decide) (min_le_left _ _)

/-- Witness for C10 at the all-zero input (the guarded case). -/
theorem confidence_total_and_bounded_witness :
    ((0:ℚ) ≤ 0) ∧
    ((max (0:ℚ) (max 0 0) = 0 → calculate_confidence 0 0 0 = mkRat 1 2) ∧
    mkRat 1 10 ≤ calculate_confidence 0 0 0 ∧
    calculate_confidence 0 0 0 ≤ mkRat 95 100) :=
  ⟨by decide, confidence_total_and_bounded 0 0 0 (by decide) (by decide) (by decide)⟩

/-! ## Precedent analysis tool (src/tools/precedent_tools.py) -/

/-- `PrecedentCase` pydantic model. -/
structure PrecedentCase where
  case_id : String
  claim_type : String
  original_claim : ℚ
  settlement_amount : ℚ
  settlement_percentage : ℚ
  resolution_time_days : ℤ
  customer_satisfaction_score : ℚ
  case_complexity : String
  special_circumstances : List String
  deriving DecidableEq

/-- The emotional-context dictionary as read by
`_generate_creative_settlement_options`: `primary_emotion` (default
"neutral") and `stress_level` (default 0.5). -/
structure PrecedentEmotionalContext where
  primary_emotion : String := "neutral"
  stress_level : ℚ := mkRat 1 2
  deriving DecidableEq

/-- One creative settlement option.  The per-type numeric parameters that
only some options carry are optional fields (a key absent from the
source's dict is `none` here); the `recommended` key, absent until the
emotional filter sets it, is a `Bool` that starts `false`. -/
structure CreativeOption where
  type : String
  description : String
  amount : ℚ
  immediate_payment : Option ℚ := none
  balance_payment_days : Option ℤ := none
  monthly_payment : Option ℚ := none
  payment_period_months : Option ℤ := none
  additional_services : List String := []
  processing_time_days : Option ℤ := none
  benefit : String
  best_for : List String
  recommended : Bool := false
  confidence_score : ℚ := 0
  deriving DecidableEq

/-- Python's `round(x, 2)`: round to 2 decimal places, ties to even. -/
def round2 (q : ℚ) : ℚ :=
  let scaled := q * 100
  let n := ⌊scaled⌋
  let frac := scaled - n
  let r : ℤ :=
    if frac < mkRat 1 2 then n
    else if frac > mkRat 1 2 then n + 1
    else if n % 2 = 0 then n else n + 1
  (r : ℚ) / 100

/-- The four option dictionaries built at the top of
`_generate_creative_settlement_options`, before any filtering. -/
def base_creative_options (settlement_amount : ℚ) : List CreativeOption :=
  [{ type := "immediate_partial"
     description := "Immediate partial payment with balance paid later"
     amount := settlement_amount * mkRat 7 10
     immediate_payment := some (settlement_amount * mkRat 4 10)
     balance_payment_days := some 15
     benefit := "Provides immediate financial relief"
     best_for := ["high_emotional_distress", "urgent_financial_need"] },
   { type := "structured"
     description := "Structured monthly payments over time"
     amount := settlement_amount * mkRat 95 100
     monthly_payment := some (settlement_amount * mkRat 95 100 / 12)
     payment_period_months := some 12
     benefit := "Consistent income stream"
     best_for := ["long_term_financial_planning", "retirees"] },
   { type := "enhanced_service"
     description := "Standard settlement plus additional services"
     amount := settlement_amount * mkRat 9 10
     additional_services := ["rental_car_voucher", "home_repair_assessment",
       "legal_consultation_voucher"]
     benefit := "Additional support beyond monetary settlement"
     best_for := ["service_oriented_customers", "complex_situations"] },
   { type := "fast_track"
     description := "Premium processing with expedited resolution"
     amount := settlement_amount * mkRat 85 100
     processing_time_days := some 5
     benefit := "Quick resolution and payment"
     best_for := ["high_stress", "time_sensitive_needs"] }]

/-- The emotional-state pass of `_generate_creative_settlement_options`:
high sadness/stress recommends immediate-partial and fast-track; anxiety
recommends structured; nothing is ever removed. -/
def apply_emotional_filter (emo : PrecedentEmotionalContext)
    (options : List CreativeOption) : List CreativeOption :=
  if emo.primary_emotion = "sadness" ∨ emo.stress_level > mkRat 7 10 then
    options.map (fun o =>
      if o.type = "immediate_partial" ∨ o.type = "fast_track" then
        { o with recommended := true }
      else o)
  else if emo.primary_emotion = "anxiety" then
    options.map (fun o =>
      if o.type = "structured" then { o with recommended := true } else o)
  else options

/-- The per-option confidence pass of
`_generate_creative_settlement_options`: 0.7 baseline, replaced by the
average satisfaction (normalised to [0,1]) of precedents whose special
circumstances occur as substrings of the option's type. -/
def option_confidence (precedents : List PrecedentCase) (o : CreativeOption) : ℚ :=
  let similar := precedents.filter (fun p =>
    p.special_circumstances.any (fun circ => occursIn circ.toList o.type.toList))
  if similar.length = 0 then mkRat 7 10
  else ((similar.map (fun p => p.customer_satisfaction_score)).sum / similar.length) / 5

/-- `PrecedentAnalysisTool._generate_creative_settlement_options`.  The
`case_complexity` parameter is declared but never read by the source's
body, mirrored here.  A `None` precedent list of the source is `[]`. -/
def generate_creative_settlement_options (settlement_amount : ℚ)
    (case_complexity : String)
    (emotional_context : Option PrecedentEmotionalContext)
    (precedents : List PrecedentCase) : List CreativeOption :=
  let _ := case_complexity
  let options := base_creative_options settlement_amount
  let options :=
    match emotional_context with
    | some emo => apply_emotional_filter emo options
    | none => options
  options.map (fun o =>
    { o with confidence_score := round2 (option_confidence precedents o) })

/-- `PrecedentAnalysisTool._identify_risk_factors`. -/
def identify_risk_factors (precedents : List PrecedentCase)
    (claim_amount : ℚ) : List String :=
  (if claim_amount > 50000 then ["high_value_claim"] else []) ++
  (if precedents.length < 3 then ["limited_precedent_data"] else []) ++
  (if precedents.length ≠ 0 ∧
      (precedents.map (fun p => p.customer_satisfaction_score)).sum /
        precedents.length < mkRat 7 2 then
    ["historically_low_satisfaction"]
  else [])

/-- `PrecedentAnalysisTool._load_relevant_precedents` applied to the parsed
precedent-case table `data` (the external mock-data file).  A claim amount
of 0 raises `ZeroDivisionError` in the source, which is caught and turned
into `[]`. -/
def load_relevant_precedents (data : List PrecedentCase) (claim_type : String)
    (claim_amount : ℚ) : List PrecedentCase :=
  if claim_amount = 0 then []
  else
    (data.filter (fun c =>
      decide (c.claim_type = claim_type ∧
        |c.original_claim - claim_amount| / claim_amount < mkRat 1 2))).take 10

/-- `SettlementRecommendation` pydantic model.  The `justification`
free-text field (percent-formatted prose of the numbers below) is not
modelled. -/
structure SettlementRecommendation where
  recommended_amount : ℚ
  confidence_level : ℚ
  precedent_cases_analyzed : ℕ
  settlement_range_min : ℚ
  settlement_range_max : ℚ
  estimated_resolution_days : ℤ
  risk_factors : List String
  creative_options : List CreativeOption
  deriving DecidableEq

/-- `PrecedentAnalysisTool.run` applied to the parsed precedent-case table
`data`.  `int(avg)` of the nonnegative average resolution time is its
floor. -/
def precedent_analysis_run (data : List PrecedentCase) (claim_type : String)
    (claim_amount : ℚ) (case_complexity : String)
    (emotional_context : Option PrecedentEmotionalContext) :
    SettlementRecommendation :=
  let precedents := load_relevant_precedents data claim_type claim_amount
  if precedents = [] then
    { recommended_amount := claim_amount * mkRat 85 100
      confidence_level := mkRat 3 10
      precedent_cases_analyzed := 0
      settlement_range_min := claim_amount * mkRat 7 10
      settlement_range_max := claim_amount * mkRat 95 100
      estimated_resolution_days := 21
      risk_factors := ["no_precedent_data"]
      creative_options := generate_creative_settlement_options claim_amount
        case_complexity emotional_context [] }
  else
    let avg_settlement_pct :=
      (precedents.map (fun p => p.settlement_percentage)).sum / precedents.length
    let avg_resolution_time :=
      ((precedents.map (fun p => p.resolution_time_days)).sum : ℚ) / precedents.length
    let recommended_amount := claim_amount * avg_settlement_pct
    let confidence := min ((precedents.length : ℚ) / 10) 1
    { recommended_amount := recommended_amount
      confidence_level := confidence
      precedent_cases_analyzed := precedents.length
      settlement_range_min := recommended_amount * mkRat 9 10
      settlement_range_max := recommended_amount * mkRat 11 10
      estimated_resolution_days := ⌊avg_resolution_time⌋
      risk_factors := identify_risk_factors precedents claim_amount
      creative_options := generate_creative_settlement_options recommended_amount
        case_complexity emotional_context precedents }

/-- Members of the loaded precedent selection come from the data table. -/
theorem mem_of_mem_load_relevant_precedents {data : List PrecedentCase}
    {claim_type : String} {claim_amount : ℚ} {p : PrecedentCase}
    (h : p ∈ load_relevant_precedents data claim_type claim_amount) :
    p ∈ data := by
  unfold load_relevant_precedents at h
  split at h
  · simp at h
  · exact (List.mem_filter.1 (List.mem_of_mem_take h)).1

/-- C8: whenever no precedent case matches (the load step returns the
empty selection), the analysis returns the conservative fallback:
85% of the claim amount, confidence 0.3, range [70%, 95%] of the claim
amount. -/
theorem precedent_fallback_recommendation (data : List PrecedentCase)
    (claim_type case_complexity : String) (claim_amount : ℚ)
    (emo : Option PrecedentEmotionalContext)
    (h : load_relevant_precedents data claim_type claim_amount = []) :
    (precedent_analysis_run data claim_type claim_amount case_complexity emo).recommended_amount =
      claim_amount * mkRat 85 100 ∧
    (precedent_analysis_run data claim_type claim_amount case_complexity emo).confidence_level =
      mkRat 3 10 ∧
    (precedent_analysis_run data claim_type claim_amount case_complexity emo).settlement_range_min =
      claim_amount * mkRat 7 10 ∧
    (precedent_analysis_run data claim_type claim_amount case_complexity emo).settlement_range_max =
      claim_amount * mkRat 95 100 := by
  unfold precedent_analysis_run
  simp [h]

/-- Witness for C8: an empty precedent table loads an empty selection, and
the fallback fields follow at a concrete claim. -/
theorem precedent_fallback_recommendation_witness :
    load_relevant_precedents [] "auto_collision" 10000 = [] ∧
    ((precedent_analysis_run [] "auto_collision" 10000 "moderate" none).recommended_amount =
      10000 * mkRat 85 100 ∧
    (precedent_analysis_run [] "auto_collision" 10000 "moderate" none).confidence_level =
      mkRat 3 10 ∧
    (precedent_analysis_run [] "auto_collision" 10000 "moderate" none).settlement_range_min =
      10000 * mkRat 7 10 ∧
    (precedent_analysis_run [] "auto_collision" 10000 "moderate" none).settlement_range_max =
      10000 * mkRat 95 100) :=
  ⟨by decide,
   precedent_fallback_recommendation [] "auto_collision" "moderate" 10000 none (by decide)⟩

/-- C9: for every base amount, complexity, precedent table, and emotional
context, creative-options generation returns exactly 4 options whose
types are, in order, immediate_partial, structured, enhanced_service and
fast_track; supplying an emotional signal changes the options only in
their `recommended` flags (erasing that flag yields the same list as the
no-signal run), and without a signal no option is recommended. -/
theorem creative_options_shape (amount : ℚ) (case_complexity : String)
    (emo : PrecedentEmotionalContext) (precedents : List PrecedentCase) :
    (generate_creative_settlement_options amount case_complexity none precedents).length = 4 ∧
    (generate_creative_settlement_options amount case_complexity (some emo) precedents).length = 4 ∧
    (generate_creative_settlement_options amount case_complexity none precedents).map
        (fun o => o.type) =
      ["immediate_partial", "structured", "enhanced_service", "fast_track"] ∧
    (generate_creative_settlement_options amount case_complexity (some emo) precedents).map
        (fun o => o.type) =
      ["immediate_partial", "structured", "enhanced_service", "fast_track"] ∧
    (generate_creative_settlement_options amount case_complexity (some emo) precedents).map
        (fun o => { o with recommended := false }) =
      (generate_creative_settlement_options amount case_complexity none precedents).map
        (fun o => { o with recommended := false }) ∧
    ∀ o ∈ generate_creative_settlement_options amount case_complexity none precedents,
      o.recommended = false := by
  unfold generate_creative_settlement_options apply_emotional_filter
    base_creative_options
  dsimp only
  split_ifs <;> simp [option_confidence]

/-- C5: every settlement recommendation (precedent-based or fallback) has
`recommended_amount` within `[settlement_range_min, settlement_range_max]`
(for nonnegative claim amounts and the nonnegative settlement percentages
of the historical data), and every settlement offer's final amount never
exceeds the policy coverage. -/
theorem settlement_recommendation_and_offer_bounds (data : List PrecedentCase)
    (claim_type case_complexity : String) (claim_amount : ℚ)
    (emo : Option PrecedentEmotionalContext)
    (ha : 0 ≤ claim_amount)
    (hpct : ∀ p ∈ data, 0 ≤ p.settlement_percentage)
    (c pcov d : ℚ) (emotional_context : String) (stress_level : ℚ) :
    ((precedent_analysis_run data claim_type claim_amount case_complexity emo).settlement_range_min ≤
       (precedent_analysis_run data claim_type claim_amount case_complexity emo).recommended_amount ∧
     (precedent_analysis_run data claim_type claim_amount case_complexity emo).recommended_amount ≤
       (precedent_analysis_run data claim_type claim_amount case_complexity emo).settlement_range_max) ∧
    (settlement_offer_run c pcov d emotional_context stress_level).settlement_amount ≤ pcov := by
  constructor
  · unfold precedent_analysis_run
    by_cases hload : load_relevant_precedents data claim_type claim_amount = []
    · simp only [hload, if_pos]
      rw [Rat.mkRat_eq_div, Rat.mkRat_eq_div, Rat.mkRat_eq_div]
      push_cast
      constructor <;> nlinarith
    · simp only [hload, if_neg, ite_false]
      have havg : 0 ≤ ((load_relevant_precedents data claim_type claim_amount).map
          (fun p => p.settlement_percentage)).sum /
          ((load_relevant_precedents data claim_type claim_amount).length : ℚ) := by
        apply div_nonneg
        · apply List.sum_nonneg
          intro x hx
          rcases List.mem_map.1 hx with ⟨p, hpmem, rfl⟩
          exact hpct p (mem_of_mem_load_relevant_precedents hpmem)
        · exact Nat.cast_nonneg _
      have hrec : 0 ≤ claim_amount *
          (((load_relevant_precedents data claim_type claim_amount).map
            (fun p => p.settlement_percentage)).sum /
            ((load_relevant_precedents data claim_type claim_amount).length : ℚ)) :=
        mul_nonneg ha havg
      rw [Rat.mkRat_eq_div, Rat.mkRat_eq_div]
      push_cast
      constructor <;> nlinarith
  · unfold settlement_offer_run
    exact min_le_right _ _

/-- Witness for C5: empty precedent table (fallback path), nonnegative
claim amount, and a concrete offer whose coverage caps the settlement. -/
theorem settlement_recommendation_and_offer_bounds_witness :
    (0:ℚ) ≤ 1000 ∧ (∀ p ∈ ([] : List PrecedentCase), 0 ≤ p.settlement_percentage) ∧
    (((precedent_analysis_run [] "auto" 1000 "simple" none).settlement_range_min ≤
       (precedent_analysis_run [] "auto" 1000 "simple" none).recommended_amount ∧
     (precedent_analysis_run [] "auto" 1000 "simple" none).recommended_amount ≤
       (precedent_analysis_run [] "auto" 1000 "simple" none).settlement_range_max) ∧
    (settlement_offer_run 1000 500 800 "neutral" 0).settlement_amount ≤ 500) :=
  ⟨by decide, by simp,
   settlement_recommendation_and_offer_bounds [] "auto" "simple" 1000 none
     (by decide) (by simp) 1000 500 800 "neutral" 0⟩
